import Mathlib

/-!
Verification of the New-Player-Protection plugin
(src/NewPlayerProtectionHooks.h) against its natural-language
specification.

Shallow embedding conventions:
* uint64 ids (steam ids, tribe ids) are modelled as Nat;
* time points and durations are modelled as integer seconds (Int);
* the plugin's mutable globals (PermissionsMap, pveTribesList,
  removedPveTribesList, TimerProt::all_players_, TimerProt::online_players_,
  the sqlite database) are gathered in the state record NPPState; the
  configuration constants live in NPPConfig;
* `std::vector<std::shared_ptr<T>>` lists are modelled as `List T`: the two
  player lists never share pointers (the element types differ and every
  element is created by a fresh make_shared), so in-place mutation through a
  shared_ptr is ordinary functional update of the corresponding list entry;
* sqlite writes are recorded in an event log (dbLog) and, for the PVE_Tribes
  table which is also read back by a SELECT, in an association list (dbPVE)
  with INSERT OR REPLACE semantics;
* engine calls (the original hooked functions, notifications, logging) are
  external: the value returned by an original function enters the model as an
  input, and a hook that returns 0 without invoking the original is the
  TDResult.blocked outcome.
-/

set_option maxHeartbeats 1000000

namespace NPP

/-- Result of the APrimalStructure.TakeDamage hook: the hook either calls
(or falls through to) the original TakeDamage and returns its value, or it
blocks the damage by returning 0 without invoking the original. -/
inductive TDResult where
  | original
  | blocked
deriving DecidableEq

/-- Per-player record of TimerProt::all_players_ (mirrored from the Players
table). Timestamps are integer seconds. -/
structure AllPlayerData where
  steam_id : Nat
  tribe_id : Nat
  startDateTime : Int
  lastLoginDateTime : Int
  level : Int
  isNewPlayer : Int
deriving DecidableEq

/-- Per-player record of TimerProt::online_players_. -/
structure OnlinePlayersData where
  steam_id : Nat
  tribe_id : Nat
  startDateTime : Int
  lastLoginDateTime : Int
  level : Int
  isNewPlayer : Int
  nextMessageTime : Int
deriving DecidableEq

/-- One sqlite statement executed by the plugin, as recorded in the write
log of the model. -/
inductive DBCmd where
  | beginTx
  | endTx
  | pragmaOptimize
  | insertPlayer (steamId tribeId : Nat) (startTime lastLogin : Int) (level isNew : Int)
  | insertPVETribe (tribeId : Nat) (isProtected : Bool)
deriving DecidableEq

/-- Configuration constants of the NewPlayerProtection namespace. -/
structure NPPConfig where
  IgnoreAdmins : Bool
  NPPAdminGroup : String
  HoursOfProtection : Int
  MaxLevel : Int
  AllowNewPlayersToDamageEnemyStructures : Bool
  AllowWildCorruptedDinoDamage : Bool
  AllowWildDinoDamage : Bool
  MessageIntervalInSecs : Int
  StructureExemptions : List String
deriving DecidableEq

/-- Mutable global state of the plugin. -/
structure NPPState where
  permissionsMap : List (Nat × List String)
  all_players : List AllPlayerData
  online_players : List OnlinePlayersData
  pveTribes : List Nat
  removedPveTribes : List Nat
  dbPVE : List (Nat × Bool)
  dbLog : List DBCmd
deriving DecidableEq

/-- PermissionsMap.Find followed by indexing, modelled as association-list
lookup on the steam id. -/
def PermissionsMapFind (pm : List (Nat × List String)) (sid : Nat) : Option (List String) :=
  (pm.find? (fun kv => kv.1 == sid)).map (fun kv => kv.2)

/-- IsAdmin: when IgnoreAdmins is set, a player is an admin exactly when the
cached permission groups of their steam id contain the NPPAdminGroup. -/
def IsAdmin (cfg : NPPConfig) (pm : List (Nat × List String)) (sid : Nat) : Bool :=
  if cfg.IgnoreAdmins then
    match PermissionsMapFind pm sid with
    | some groups => groups.contains cfg.NPPAdminGroup
    | none => false
  else
    false

/-- IsPVETribe: std::count over pveTribesList is positive iff the list
contains the tribe id. -/
def IsPVETribe (pveTribes : List Nat) (tribeid : Nat) : Bool :=
  pveTribes.contains tribeid

/-- IsTribeProtected. The find_if lambda in the source returns a value only
on its non-admin path (falling off the end of a non-void lambda otherwise);
we model the admin path as the predicate being false, i.e. an admin entry
never witnesses tribe protection, matching the guarded return. -/
def IsTribeProtected (cfg : NPPConfig) (st : NPPState) (tribeid : Nat) : Bool :=
  if 100000 < tribeid then
    if !(IsPVETribe st.pveTribes tribeid) then
      st.all_players.any (fun d =>
        !(IsAdmin cfg st.permissionsMap d.steam_id) && d.tribe_id == tribeid && d.isNewPlayer == 1)
    else true
  else false

/-- IsPlayerProtected. The source walks online_players_; on the first entry
with the given steam id it returns that entry's isNewPlayer (as bool) when
the entry is not an admin, and keeps scanning when it is an admin. The
controller argument of the source enters the model as the steam id it
resolves to. -/
def IsPlayerProtected (cfg : NPPConfig) (st : NPPState) (sid : Nat) : Bool :=
  match st.online_players.find? (fun d =>
      d.steam_id == sid && !(IsAdmin cfg st.permissionsMap d.steam_id)) with
  | some d => d.isNewPlayer != 0
  | none => false

/-- An attacked structure: its TargetingTeamField and its blueprint path
(the value GetBlueprint produces for IsExemptStructure). -/
structure PrimalStructure where
  targetingTeam : Nat
  blueprintPath : String
deriving DecidableEq

/-- IsExemptStructure: with a non-empty exemption list, a structure is
exempt exactly when its blueprint path occurs in StructureExemptions. -/
def IsExemptStructure (cfg : NPPConfig) (s : PrimalStructure) : Bool :=
  if 0 < cfg.StructureExemptions.length then
    cfg.StructureExemptions.contains s.blueprintPath
  else false

/-- Dynamic class of the EventInstigator: APrimalDinoCharacter and
AShooterPlayerController are disjoint engine classes, so the two IsA tests
of the source are modelled by one three-valued kind. -/
inductive InstigatorKind where
  | dino
  | playerController
  | other
deriving DecidableEq

/-- The EventInstigator of a TakeDamage call. steam_id is the value
GetSteamIdFromController yields when the instigator is a player
controller. -/
structure Instigator where
  kind : InstigatorKind
  targetingTeam : Nat
  name : String
  steam_id : Nat
deriving DecidableEq

/-- The DamageCauser of a TakeDamage call (only its team, its dino-ness and
its name are inspected). -/
structure CauserActor where
  targetingTeam : Nat
  isDino : Bool
  name : String
deriving DecidableEq

/-- FString::Contains("Corrupt") on a dino name. -/
def containsCorrupt (s : String) : Bool :=
  decide (List.IsInfix "Corrupt".toList s.toList)

/-- Hook_APrimalStructure_TakeDamage, reduced to its control flow: which
calls end in the original TakeDamage and which return 0 without calling it.
The message-throttling side effects (IsNextMessageReady and notifications)
never influence the returned value and are modelled separately by
IsNextMessageReady below. -/
def Hook_APrimalStructure_TakeDamage (cfg : NPPConfig) (st : NPPState)
    (target : Option PrimalStructure) (damageCauser : Option CauserActor)
    (eventInstigator : Option Instigator) : TDResult :=
  match target with
  | none => TDResult.original
  | some s =>
    if IsExemptStructure cfg s then TDResult.original
    else
      match damageCauser with
      | some dc =>
        match eventInstigator with
        | some ei =>
          if ei.kind = InstigatorKind.dino ∧ cfg.AllowWildCorruptedDinoDamage ∧
              ei.targetingTeam < 10000 ∧ containsCorrupt ei.name then
            TDResult.original
          else if ei.kind = InstigatorKind.dino ∧ cfg.AllowWildDinoDamage ∧
              ei.targetingTeam < 10000 then
            TDResult.original
          else if ei.kind = InstigatorKind.playerController then
            if IsAdmin cfg st.permissionsMap ei.steam_id then TDResult.original
            else if IsPlayerProtected cfg st ei.steam_id then
              if ¬ cfg.AllowNewPlayersToDamageEnemyStructures then
                if s.targetingTeam < 100000 ∨ s.targetingTeam = dc.targetingTeam then
                  TDResult.original
                else TDResult.blocked
              else TDResult.original
            else if IsTribeProtected cfg st s.targetingTeam ∧
                s.targetingTeam ≠ dc.targetingTeam then
              TDResult.blocked
            else TDResult.original
          else TDResult.original
        | none =>
          if s.targetingTeam = dc.targetingTeam then TDResult.original
          else if IsTribeProtected cfg st s.targetingTeam then
            if dc.isDino ∧ cfg.AllowWildCorruptedDinoDamage ∧
                dc.targetingTeam < 10000 ∧ containsCorrupt dc.name then
              TDResult.original
            else if dc.isDino ∧ cfg.AllowWildDinoDamage ∧ dc.targetingTeam < 10000 then
              TDResult.original
            else TDResult.blocked
          else if IsTribeProtected cfg st dc.targetingTeam ∧
              ¬ cfg.AllowNewPlayersToDamageEnemyStructures then
            TDResult.blocked
          else TDResult.original
      | none =>
        if IsTribeProtected cfg st s.targetingTeam then TDResult.blocked
        else TDResult.original

end NPP

namespace NPP

/-- TimerProt::AddPlayerFromDB: appends a record to all_players_ unless an
entry with the same steam id already exists. -/
def AddPlayerFromDB (st : NPPState) (sid tid : Nat) (startTime lastLogin : Int)
    (level isNew : Int) : NPPState :=
  if st.all_players.any (fun d => d.steam_id == sid) then st
  else { st with all_players := st.all_players ++ [⟨sid, tid, startTime, lastLogin, level, isNew⟩] }

/-- TimerProt::AddNewPlayer: appends a fresh level-1 new-player record
unless an entry with the same steam id already exists. -/
def AddNewPlayer (st : NPPState) (sid tid : Nat) (now : Int) : NPPState :=
  if st.all_players.any (fun d => d.steam_id == sid) then st
  else { st with all_players := st.all_players ++ [⟨sid, tid, now, now, 1, 1⟩] }

/-- The all_players_ side effect of AddOnlinePlayer: the first entry with
the given steam id gets its lastLoginDateTime refreshed (the source loop
breaks after the first match). -/
def setLastLoginFirst : List AllPlayerData → Nat → Int → List AllPlayerData
  | [], _, _ => []
  | d :: rest, sid, t =>
    if d.steam_id == sid then { d with lastLoginDateTime := t } :: rest
    else d :: setLastLoginFirst rest sid t

/-- TimerProt::AddOnlinePlayer: returns unchanged when the steam id is
already online; otherwise seeds the new online record from the matching
all_players_ entry when one exists (also refreshing that entry's last
login), and with fresh defaults otherwise. nextMessageTime starts at now. -/
def AddOnlinePlayer (st : NPPState) (sid tid : Nat) (now : Int) : NPPState :=
  if st.online_players.any (fun d => d.steam_id == sid) then st
  else
    match st.all_players.find? (fun d => d.steam_id == sid) with
    | some a =>
      { st with
        all_players := setLastLoginFirst st.all_players sid now,
        online_players := st.online_players ++
          [⟨sid, a.tribe_id, a.startDateTime, now, a.level, a.isNewPlayer, now⟩] }
    | none =>
      { st with online_players := st.online_players ++ [⟨sid, tid, now, now, 1, 1, now⟩] }

/-- TimerProt::RemovePlayer erases the first online entry with the given
steam id (std::remove compares the found shared_ptr by pointer identity, so
exactly that entry is removed). -/
def removeFirstOnline : List OnlinePlayersData → Nat → List OnlinePlayersData
  | [], _ => []
  | d :: rest, sid => if d.steam_id == sid then rest else d :: removeFirstOnline rest sid

/-- TimerProt::RemovePlayer on the global state. -/
def RemovePlayer (st : NPPState) (sid : Nat) : NPPState :=
  { st with online_players := removeFirstOnline st.online_players sid }

/-- Hook_AShooterGameMode_Logout: removes the player from the online list,
then removes their entry from the permissions cache; the original Logout is
invoked afterwards and touches none of the plugin state. -/
def Hook_AShooterGameMode_Logout (st : NPPState) (sid : Nat) : NPPState :=
  let st1 := RemovePlayer st sid
  { st1 with permissionsMap := st1.permissionsMap.filter (fun kv => !(kv.1 == sid)) }

/-- TimerProt::IsNextMessageReady: walks online_players_; on the first entry
with the given steam id, returns true and bumps that entry's
nextMessageTime to now + MessageIntervalInSecs when the stored time is due,
and returns false leaving the list unchanged otherwise. A steam id that is
not online yields true. Returns the decision and the updated list. -/
def IsNextMessageReady (cfg : NPPConfig) (now : Int) (sid : Nat) :
    List OnlinePlayersData → Bool × List OnlinePlayersData
  | [] => (true, [])
  | d :: rest =>
    if d.steam_id == sid then
      if d.nextMessageTime - now ≤ 0 then
        (true, { d with nextMessageTime := now + cfg.MessageIntervalInSecs } :: rest)
      else (false, d :: rest)
    else
      ((IsNextMessageReady cfg now sid rest).1, d :: (IsNextMessageReady cfg now sid rest).2)

/-- nextMessageTime of the first online entry with the given steam id. -/
def firstMessageTime (l : List OnlinePlayersData) (sid : Nat) : Option Int :=
  (l.find? (fun d => d.steam_id == sid)).map (fun d => d.nextMessageTime)

/-- The expiry test of RemoveExpiredTribesProtection for one all_players_
entry: the protection window elapsed (diff = startDateTime - expireTime in
seconds is non-positive, where cutoff stands for now minus HoursOfProtection
hours), or the level reached MaxLevel, or the entry is already not new. -/
def expiredCond (cfg : NPPConfig) (cutoff : Int) (a : AllPlayerData) : Bool :=
  decide (a.startDateTime - cutoff ≤ 0) || decide (cfg.MaxLevel ≤ a.level) ||
    (a.isNewPlayer == 0)

/-- One iteration of the outer loop of RemoveExpiredTribesProtection: read
the entry at index i of the live list (the source iterates a copied vector
of shared pointers, so mutations of earlier iterations are visible); when
it is expired and not an admin, zero isNewPlayer on it, on every non-admin
all_players_ entry of the same tribe (the source's direct write to the
entry itself is subsumed: the entry is non-admin and trivially of its own
tribe) and on every non-admin online entry with the same steam id or tribe
id. -/
def reStepAux (cfg : NPPConfig) (cutoff : Int) (st : NPPState) :
    Option AllPlayerData → NPPState
  | none => st
  | some a =>
    if expiredCond cfg cutoff a ∧ ¬ IsAdmin cfg st.permissionsMap a.steam_id then
      { st with
        all_players := st.all_players.map (fun b =>
          if b.tribe_id == a.tribe_id && !(IsAdmin cfg st.permissionsMap b.steam_id) then
            { b with isNewPlayer := 0 }
          else b),
        online_players := st.online_players.map (fun o =>
          if (a.steam_id == o.steam_id || a.tribe_id == o.tribe_id) &&
              !(IsAdmin cfg st.permissionsMap o.steam_id) then
            { o with isNewPlayer := 0 }
          else o) }
    else st

/-- One iteration of the outer loop, reading the entry at index i of the
live list. -/
def reStep (cfg : NPPConfig) (cutoff : Int) (st : NPPState) (i : Nat) : NPPState :=
  reStepAux cfg cutoff st st.all_players[i]?

/-- The outer loop of RemoveExpiredTribesProtection over a list of
indices. -/
def reFold (cfg : NPPConfig) (cutoff : Int) : List Nat → NPPState → NPPState
  | [], st => st
  | i :: rest, st => reFold cfg cutoff rest (reStep cfg cutoff st i)

/-- RemoveExpiredTribesProtection: iterate the expiry pass over every index
of all_players_ (the list length is fixed by the loop: no iteration adds or
removes entries). -/
def RemoveExpiredTribesProtection (cfg : NPPConfig) (now : Int) (st : NPPState) : NPPState :=
  reFold cfg (now - cfg.HoursOfProtection * 3600) (List.range st.all_players.length) st

/-- One call to the four TimerProt list operations, as an event. -/
inductive TimerOp where
  | addNewPlayer (sid tid : Nat) (now : Int)
  | addPlayerFromDB (sid tid : Nat) (startTime lastLogin : Int) (level isNew : Int)
  | addOnlinePlayer (sid tid : Nat) (now : Int)
  | removePlayer (sid : Nat)

/-- Interpretation of a TimerProt operation on the global state. -/
def applyTimerOp (st : NPPState) : TimerOp → NPPState
  | TimerOp.addNewPlayer sid tid now => AddNewPlayer st sid tid now
  | TimerOp.addPlayerFromDB sid tid startTime lastLogin level isNew =>
      AddPlayerFromDB st sid tid startTime lastLogin level isNew
  | TimerOp.addOnlinePlayer sid tid now => AddOnlinePlayer st sid tid now
  | TimerOp.removePlayer sid => RemovePlayer st sid

/-- The plugin state with both player lists (and everything else) empty. -/
def emptyTimerState : NPPState := ⟨[], [], [], [], [], [], []⟩

/-- No two all_players_ entries and no two online_players_ entries share a
steam id. -/
def uniqueSteamIds (st : NPPState) : Prop :=
  (st.all_players.map (fun d => d.steam_id)).Nodup ∧
  (st.online_players.map (fun d => d.steam_id)).Nodup

/-- isNewPlayer flag of the all_players_ entry at an index. -/
def allIsNewAt (st : NPPState) (j : Nat) : Option Int :=
  (st.all_players[j]?).map (fun d => d.isNewPlayer)

/-- isNewPlayer flag of the online_players_ entry at an index. -/
def onlineIsNewAt (st : NPPState) (k : Nat) : Option Int :=
  (st.online_players[k]?).map (fun d => d.isNewPlayer)

/-- Concrete configuration for the expiry witness: admins ignored by
configuration, 24 protection hours, MaxLevel 100. -/
def exCfg3 : NPPConfig := ⟨false, "Admins", 24, 100, false, false, false, 60, []⟩

/-- Expiry witness: an expired founder of tribe 200000. -/
def exA3 : AllPlayerData := ⟨1, 200000, 0, 0, 1, 1⟩

/-- Expiry witness: a fresh tribemate of the expired founder. -/
def exB3 : AllPlayerData := ⟨2, 200000, 999999, 999999, 1, 1⟩

/-- Expiry witness: an online player of the same tribe. -/
def exO3 : OnlinePlayersData := ⟨3, 200000, 999999, 999999, 1, 1, 0⟩

/-- Expiry witness: the state holding the three records above. -/
def exSt3 : NPPState := ⟨[], [exA3, exB3], [exO3], [], [], [], []⟩

/-- INSERT OR REPLACE on the PVE_Tribes table. -/
def upsertPVE (tbl : List (Nat × Bool)) (t : Nat) (p : Bool) : List (Nat × Bool) :=
  if tbl.any (fun kv => kv.1 == t) then
    tbl.map (fun kv => if kv.1 == t then (t, p) else kv)
  else tbl ++ [(t, p)]

/-- UpdatePlayerDB: one INSERT OR REPLACE into the Players table (the model
records the write in the log; nothing reads the Players table back, so no
table state is kept for it). -/
def UpdatePlayerDB (st : NPPState) (d : AllPlayerData) : NPPState :=
  { st with dbLog := st.dbLog ++
      [DBCmd.insertPlayer d.steam_id d.tribe_id d.startDateTime d.lastLoginDateTime
        d.level d.isNewPlayer] }

/-- UpdatePVETribeDB: INSERT OR REPLACE into PVE_Tribes; when the tribe is
written as no-longer-protected, the source then clears
removedPveTribesList and pveTribesList and reloads pveTribesList from the
still-protected rows of the freshly updated table. -/
def UpdatePVETribeDB (st : NPPState) (tribe : Nat) (stillProtected : Bool) : NPPState :=
  let st1 := { st with
    dbLog := st.dbLog ++ [DBCmd.insertPVETribe tribe stillProtected],
    dbPVE := upsertPVE st.dbPVE tribe stillProtected }
  if stillProtected then st1
  else
    { st1 with
      removedPveTribes := [],
      pveTribes := (st1.dbPVE.filter (fun kv => kv.2)).map (fun kv => kv.1) }

/-- The loop over removedPveTribesList inside Hook_AShooterGameMode_SaveWorld.
The source range-for iterates the vector while the first
UpdatePVETribeDB(_, false) call clears that very vector, invalidating the
iterators; the model resolves this undefined behaviour by checking the
index against the live vector before each iteration. fuel only bounds the
recursion; the call site passes one more than the initial length, which the
loop can never exhaust because no iteration grows the list. -/
def saveRemovedLoop : Nat → NPPState → Nat → NPPState
  | 0, st, _ => st
  | fuel + 1, st, i =>
    if h : i < st.removedPveTribes.length then
      saveRemovedLoop fuel (UpdatePVETribeDB st (st.removedPveTribes.get ⟨i, h⟩) false) (i + 1)
    else st

/-- Hook_AShooterGameMode_SaveWorld: the original SaveWorld runs first and
its boolean result enters the model as origResult; then, inside one
BEGIN/END TRANSACTION, every all_players_ record is written, every
pveTribesList tribe is written as protected, the removedPveTribesList loop
runs, and PRAGMA optimize closes the batch; the hook returns origResult
unchanged. -/
def Hook_AShooterGameMode_SaveWorld (origResult : Bool) (st : NPPState) : Bool × NPPState :=
  let st1 := { st with dbLog := st.dbLog ++ [DBCmd.beginTx] }
  let st2 := st1.all_players.foldl UpdatePlayerDB st1
  let st3 := st2.pveTribes.foldl (fun s t => UpdatePVETribeDB s t true) st2
  let st4 := saveRemovedLoop (st3.removedPveTribes.length + 1) st3 0
  let st5 := { st4 with dbLog := st4.dbLog ++ [DBCmd.endTx, DBCmd.pragmaOptimize] }
  (origResult, st5)

/-- SaveWorld failing input: two tribes await persistence of their lost
protection, and the PVE_Tribes table still carries both as protected from
the previous save. -/
def exSt6 : NPPState :=
  ⟨[], [], [], [], [200001, 200002], [(200001, true), (200002, true)], []⟩

/-- Parsed PluginInfo.json content; ReadPluginInfo fills these defaults for
missing keys, so the file always yields a record. Versions are modelled as
integers. -/
structure PluginInfo where
  full_name : String
  description : String
  version : Int
  min_api_version : Int
  dependencies : List String
deriving DecidableEq

/-- One loaded plugin (the native module handle lives outside the model). -/
structure Plugin where
  name : String
  full_name : String
  description : String
  version : Int
  min_api_version : Int
  dependencies : List String
deriving DecidableEq

/-- The Plugin record LoadPlugin emplaces for a name and its info. -/
def mkPlugin (n : String) (info : PluginInfo) : Plugin :=
  ⟨n, info.full_name, info.description, info.version, info.min_api_version, info.dependencies⟩

/-- External world of the plugin manager: the parsed plugin-info files, the
outcomes of the native LoadLibrary/FreeLibrary calls, and the API
version. -/
structure PMEnv where
  pluginInfo : String → PluginInfo
  loadLibraryOk : String → Bool
  freeLibraryOk : String → Bool
  apiVersion : Int

/-- Plugin-manager state: the file system as a set of existing paths (file
contents are not tracked) and loaded_plugins_. -/
structure PMState where
  files : List String
  loaded_plugins_ : List Plugin
deriving DecidableEq

/-- Path of a plugin's dll inside its directory. -/
def dllPath (name : String) : String :=
  "ArkApi/Plugins/" ++ name ++ "/" ++ name ++ ".dll"

/-- Path of the staged replacement dll (the dll path with the .ArkApi
suffix). -/
def arkApiPath (name : String) : String :=
  dllPath name ++ ".ArkApi"

/-- FindPlugin != end: some loaded plugin carries the name. -/
def IsPluginLoaded (st : PMState) (name : String) : Bool :=
  st.loaded_plugins_.any (fun p => p.name == name)

/-- The erase of UnloadPlugin: std::remove compares against the shared_ptr
FindPlugin returned, and every emplace creates a fresh pointer, so exactly
the first entry with the name disappears. -/
def eraseFirstPlugin : List Plugin → String → List Plugin
  | [], _ => []
  | p :: rest, n => if p.name == n then rest else p :: eraseFirstPlugin rest n

/-- PluginManager::LoadPlugin. Returns the state after the call and the
thrown error, if any; a throw leaves the state untouched, since the only
mutation (emplace_back) is the final step. -/
def LoadPlugin (env : PMEnv) (st : PMState) (name : String) : PMState × Option String :=
  if ¬ st.files.contains (dllPath name) then
    (st, some "does not exist")
  else if IsPluginLoaded st name then
    (st, some "was already loaded")
  else if (env.pluginInfo name).min_api_version ≠ 0 ∧
      env.apiVersion < (env.pluginInfo name).min_api_version then
    (st, some "requires newer API version")
  else if ¬ env.loadLibraryOk name then
    (st, some "failed to load plugin")
  else
    ({ st with loaded_plugins_ := st.loaded_plugins_ ++ [mkPlugin name (env.pluginInfo name)] },
      none)

/-- PluginManager::UnloadPlugin, with the same conventions. -/
def UnloadPlugin (env : PMEnv) (st : PMState) (name : String) : PMState × Option String :=
  if ¬ IsPluginLoaded st name then
    (st, some "is not loaded")
  else if ¬ st.files.contains (dllPath name) then
    (st, some "does not exist")
  else if ¬ env.freeLibraryOk name then
    (st, some "failed to unload plugin")
  else
    ({ st with loaded_plugins_ := eraseFirstPlugin st.loaded_plugins_ name }, none)

/-- Existence-set effect of copy_file with overwrite_existing: the target
path exists afterwards. -/
def addFile (files : List String) (p : String) : List String :=
  if files.contains p then files else files ++ [p]

/-- Existence-set effect of filesystem remove. -/
def removeFile (files : List String) (p : String) : List String :=
  files.filter (fun q => !(q == p))

/-- The body of DetectPluginChanges for one plugin directory: when the
staged .dll.ArkApi file exists and a plugin with the directory's name is
loaded, unload it, copy the staged file over the dll, delete the staged
file and load the plugin again; an exception from any step is caught and
ends the directory's processing, with the state changes already made kept.
Every other directory is skipped outright. (The save-world-before-reload
engine call is external and not modelled.) -/
def processDir (env : PMEnv) (st : PMState) (name : String) : PMState :=
  if st.files.contains (arkApiPath name) ∧ IsPluginLoaded st name then
    if (UnloadPlugin env st name).2.isSome then st
    else
      (LoadPlugin env
        { (UnloadPlugin env st name).1 with
          files := removeFile (addFile (UnloadPlugin env st name).1.files (dllPath name))
            (arkApiPath name) }
        name).1
  else st

/-- PluginManager::DetectPluginChanges: process every plugin directory in
order. -/
def DetectPluginChanges (env : PMEnv) (st : PMState) (dirs : List String) : PMState :=
  dirs.foldl (processDir env) st

/-- Plugin-manager witness environment: every native call succeeds and no
plugin demands a newer API. -/
def exEnvPM : PMEnv := ⟨fun _ => ⟨"Full", "Desc", 1, 0, []⟩, fun _ => true, fun _ => true, 10⟩

/-- Hot-swap witness: the plugin that is loaded. -/
def exPlugin5 : Plugin := ⟨"npp", "Full", "Desc", 1, 0, []⟩

/-- Hot-swap witness state: dll and staged dll both on disk, plugin
loaded. -/
def exSt5 : PMState := ⟨[dllPath "npp", arkApiPath "npp"], [exPlugin5]⟩

/-- LoadPlugin witness state: dll on disk, nothing loaded. -/
def exSt7 : PMState := ⟨[dllPath "npp"], []⟩

/-- The intermediate state of a hot swap: plugin unloaded, staged file
copied over the dll and then deleted. -/
def swapState (st : PMState) (name : String) : PMState :=
  { files := removeFile (addFile st.files (dllPath name)) (arkApiPath name),
    loaded_plugins_ := eraseFirstPlugin st.loaded_plugins_ name }

/-- The final state of a hot swap: swapState with the plugin re-loaded. -/
def swappedState (env : PMEnv) (st : PMState) (name : String) : PMState :=
  { files := removeFile (addFile st.files (dllPath name)) (arkApiPath name),
    loaded_plugins_ := eraseFirstPlugin st.loaded_plugins_ name ++
      [mkPlugin name (env.pluginInfo name)] }

/-- C10: for every tribe id at most 100000, IsTribeProtected is false, no
matter the player list, the permissions and even when the tribe id occurs in
the PVE tribes list: tribe-level protection only ever applies to tribe ids
strictly greater than 100000. -/
theorem C10_low_tribe_ids_never_protected (cfg : NPPConfig) (st : NPPState)
    (tribeid : Nat) (h : tribeid ≤ 100000) :
    IsTribeProtected cfg st tribeid = false := by
  unfold IsTribeProtected
  rw [if_neg]
  omega

/-- Witness for C10 at a concrete input: tribe id 100000 is unprotected even
though it occurs in the PVE tribes list and a matching new player exists. -/
theorem C10_low_tribe_ids_never_protected_witness :
    IsTribeProtected
      ⟨true, "Admins", 24, 15, false, false, false, 60, []⟩
      ⟨[], [⟨7, 100000, 0, 0, 1, 1⟩], [], [100000], [], [], []⟩
      100000 = false :=
  C10_low_tribe_ids_never_protected _ _ 100000 (by decide)

/-- C1: a TakeDamage call on a non-null, non-exempt structure, with a
non-null DamageCauser, whose EventInstigator is a player controller with a
non-admin steam id and an unprotected player, attacking a protected tribe
other than its own, returns 0 and never reaches the original TakeDamage. -/
theorem C1_protected_tribe_structure_takes_no_damage
    (cfg : NPPConfig) (st : NPPState) (s : PrimalStructure)
    (dc : CauserActor) (ei : Instigator)
    (hkind : ei.kind = InstigatorKind.playerController)
    (hexempt : IsExemptStructure cfg s = false)
    (hadmin : IsAdmin cfg st.permissionsMap ei.steam_id = false)
    (hprot : IsPlayerProtected cfg st ei.steam_id = false)
    (htribe : IsTribeProtected cfg st s.targetingTeam = true)
    (hneq : s.targetingTeam ≠ dc.targetingTeam) :
    Hook_APrimalStructure_TakeDamage cfg st (some s) (some dc) (some ei) =
      TDResult.blocked := by
  simp [Hook_APrimalStructure_TakeDamage, hkind, hexempt, hadmin, hprot, htribe, hneq]

/-- Witness for C1: an unprotected attacker (empty online list) of tribe
300000 hits a structure of tribe 200000 owned by a protected new player. -/
theorem C1_protected_tribe_structure_takes_no_damage_witness :
    Hook_APrimalStructure_TakeDamage
      ⟨true, "Admins", 24, 15, false, false, false, 60, []⟩
      ⟨[], [⟨7, 200000, 0, 0, 1, 1⟩], [], [], [], [], []⟩
      (some ⟨200000, "Blueprint1"⟩) (some ⟨300000, false, "Attacker"⟩)
      (some ⟨InstigatorKind.playerController, 300000, "Player9", 9⟩) =
      TDResult.blocked :=
  C1_protected_tribe_structure_takes_no_damage _ _ _ _ _
    (by decide) (by decide) (by decide) (by decide) (by decide) (by decide)

/-- C2: a TakeDamage call on a non-null, non-exempt structure with non-null
DamageCauser, whose EventInstigator is a non-admin player controller whose
player is protected, under AllowNewPlayersToDamageEnemyStructures = false,
calls the original TakeDamage exactly when the attacked tribe id is below
100000 or equals the attacking tribe id, and returns 0 otherwise. -/
theorem C2_new_player_damage_rules
    (cfg : NPPConfig) (st : NPPState) (s : PrimalStructure)
    (dc : CauserActor) (ei : Instigator)
    (hkind : ei.kind = InstigatorKind.playerController)
    (hexempt : IsExemptStructure cfg s = false)
    (hadmin : IsAdmin cfg st.permissionsMap ei.steam_id = false)
    (hprot : IsPlayerProtected cfg st ei.steam_id = true)
    (hallow : cfg.AllowNewPlayersToDamageEnemyStructures = false) :
    Hook_APrimalStructure_TakeDamage cfg st (some s) (some dc) (some ei) =
      (if s.targetingTeam < 100000 ∨ s.targetingTeam = dc.targetingTeam then
        TDResult.original
      else TDResult.blocked) := by
  simp [Hook_APrimalStructure_TakeDamage, hkind, hexempt, hadmin, hprot, hallow]

/-- Witness for C2: a protected player of tribe 300000 attacking an enemy
structure of tribe 200000 is blocked. -/
theorem C2_new_player_damage_rules_witness :
    Hook_APrimalStructure_TakeDamage
      ⟨true, "Admins", 24, 15, false, false, false, 60, []⟩
      ⟨[], [⟨9, 300000, 0, 0, 1, 1⟩], [⟨9, 300000, 0, 0, 1, 1, 0⟩], [], [], [], []⟩
      (some ⟨200000, "Blueprint1"⟩) (some ⟨300000, false, "Attacker"⟩)
      (some ⟨InstigatorKind.playerController, 300000, "Player9", 9⟩) =
      TDResult.blocked := by
  rw [C2_new_player_damage_rules _ _ _ _ _
    (by decide) (by decide) (by decide) (by decide) (by decide)]
  decide

/-- C4: when IsNextMessageReady answers true for a steam id present in the
online list, it stamps that player's nextMessageTime with now plus
MessageIntervalInSecs, and any later call made strictly before that stamp
answers false and leaves the list unchanged (so it cannot answer true twice
within one interval). -/
theorem C4_message_throttling (cfg : NPPConfig) (now1 now2 : Int) (sid : Nat)
    (l l2 : List OnlinePlayersData)
    (hmem : l.any (fun d => d.steam_id == sid) = true)
    (hcall : IsNextMessageReady cfg now1 sid l = (true, l2))
    (hlt : now2 < now1 + cfg.MessageIntervalInSecs) :
    firstMessageTime l2 sid = some (now1 + cfg.MessageIntervalInSecs) ∧
    IsNextMessageReady cfg now2 sid l2 = (false, l2) := by
  induction l generalizing l2 with
  | nil => simp at hmem
  | cons d rest ih =>
    rw [IsNextMessageReady] at hcall
    by_cases h : (d.steam_id == sid) = true
    · rw [if_pos h] at hcall
      by_cases h2 : d.nextMessageTime - now1 ≤ 0
      · rw [if_pos h2] at hcall
        simp only [Prod.mk.injEq, true_and] at hcall
        subst hcall
        refine ⟨?_, ?_⟩
        · rw [firstMessageTime, List.find?_cons_of_pos]
          · rfl
          · exact h
        · rw [IsNextMessageReady, if_pos h,
            if_neg (show ¬(now1 + cfg.MessageIntervalInSecs - now2 ≤ 0) by omega)]
      · rw [if_neg h2] at hcall
        simp only [Prod.mk.injEq] at hcall
        exact absurd hcall.1 (by decide)
    · rw [if_neg h] at hcall
      simp only [Prod.mk.injEq] at hcall
      obtain ⟨h1, hl2⟩ := hcall
      have hmem' : rest.any (fun d => d.steam_id == sid) = true := by
        simpa [h] using hmem
      have hcall' : IsNextMessageReady cfg now1 sid rest =
          (true, (IsNextMessageReady cfg now1 sid rest).2) := by
        rw [← h1]
      obtain ⟨g1, g2⟩ := ih _ hmem' hcall'
      subst hl2
      refine ⟨?_, ?_⟩
      · rw [firstMessageTime, List.find?_cons_of_neg]
        · exact g1
        · simpa using h
      · rw [IsNextMessageReady, if_neg h, g2]

/-- Helper: after removeFirstOnline, no entry with the removed steam id
remains, provided the list held at most one such entry. -/
theorem removeFirstOnline_not_mem (l : List OnlinePlayersData) (sid : Nat)
    (h : l.countP (fun d => d.steam_id == sid) ≤ 1) :
    ∀ d ∈ removeFirstOnline l sid, ¬ d.steam_id = sid := by
  induction l with
  | nil => simp [removeFirstOnline]
  | cons d rest ih =>
    rw [removeFirstOnline]
    by_cases hd : (d.steam_id == sid) = true
    · rw [if_pos hd]
      rw [List.countP_cons_of_pos] at h
      · have h0 : rest.countP (fun d => d.steam_id == sid) = 0 := by omega
        intro x hx
        have hnx := List.countP_eq_zero.mp h0 x hx
        simpa using hnx
      · exact hd
    · rw [if_neg hd]
      intro x hx
      rcases List.mem_cons.mp hx with h1 | h1
      · subst h1
        simpa using hd
      · have h' : rest.countP (fun d => d.steam_id == sid) ≤ 1 := by
          rw [List.countP_cons_of_neg] at h
          · exact h
          · simpa using hd
        exact ih h' x h1

/-- C8: logging out removes the player's online entry and their
permissions-cache entry, while all_players_ is untouched, so the player's
protection record survives disconnection. The uniqueness hypothesis (at
most one online entry per steam id) is the invariant C9 establishes. -/
theorem C8_logout_removes_online_and_cache (st : NPPState) (sid : Nat)
    (huniq : st.online_players.countP (fun d => d.steam_id == sid) ≤ 1) :
    (Hook_AShooterGameMode_Logout st sid).all_players = st.all_players ∧
    PermissionsMapFind (Hook_AShooterGameMode_Logout st sid).permissionsMap sid = none ∧
    (Hook_AShooterGameMode_Logout st sid).online_players =
      removeFirstOnline st.online_players sid ∧
    ∀ d ∈ (Hook_AShooterGameMode_Logout st sid).online_players, ¬ d.steam_id = sid := by
  refine ⟨rfl, ?_, rfl, ?_⟩
  · rw [PermissionsMapFind, Option.map_eq_none', List.find?_eq_none]
    intro kv hkv
    have := (List.mem_filter.mp hkv).2
    simpa using this
  · exact removeFirstOnline_not_mem _ _ huniq

/-- Witness for C8 on a concrete state with one online player and a cached
permission entry. -/
theorem C8_logout_removes_online_and_cache_witness :
    (Hook_AShooterGameMode_Logout
      ⟨[(9, ["Admins"])], [⟨9, 300000, 0, 0, 1, 1⟩], [⟨9, 300000, 0, 0, 1, 1, 0⟩], [], [], [], []⟩
      9).all_players = [⟨9, 300000, 0, 0, 1, 1⟩] ∧
    PermissionsMapFind (Hook_AShooterGameMode_Logout
      ⟨[(9, ["Admins"])], [⟨9, 300000, 0, 0, 1, 1⟩], [⟨9, 300000, 0, 0, 1, 1, 0⟩], [], [], [], []⟩
      9).permissionsMap 9 = none := by
  have h := C8_logout_removes_online_and_cache
    ⟨[(9, ["Admins"])], [⟨9, 300000, 0, 0, 1, 1⟩], [⟨9, 300000, 0, 0, 1, 1, 0⟩], [], [], [], []⟩
    9 (by decide)
  exact ⟨h.1, h.2.1⟩

/-- Helper: appending an element whose key is absent keeps the mapped list
duplicate-free. -/
theorem nodup_map_append {α : Type} (f : α → Nat) (l : List α) (x : α)
    (hnd : (l.map f).Nodup)
    (hno : l.any (fun d => f d == f x) = false) :
    ((l ++ [x]).map f).Nodup := by
  rw [List.map_append]
  refine List.Nodup.append hnd (List.nodup_singleton _) ?_
  intro a ha hb
  rcases List.mem_map.mp ha with ⟨d, hd, hds⟩
  have hax : a = f x := by simpa using hb
  have := List.any_eq_false.mp hno d hd
  rw [hds] at this
  rw [hax] at this
  simp at this

/-- Helper: setLastLoginFirst does not change the steam ids of a list. -/
theorem setLastLoginFirst_map_steam (l : List AllPlayerData) (sid : Nat) (t : Int) :
    (setLastLoginFirst l sid t).map (fun d => d.steam_id) =
      l.map (fun d => d.steam_id) := by
  induction l with
  | nil => rfl
  | cons d rest ih =>
    rw [setLastLoginFirst]
    by_cases hd : (d.steam_id == sid) = true
    · rw [if_pos hd]
      simp
    · rw [if_neg hd]
      simp [ih]

/-- Helper: removeFirstOnline yields a sublist. -/
theorem removeFirstOnline_sublist (l : List OnlinePlayersData) (sid : Nat) :
    List.Sublist (removeFirstOnline l sid) l := by
  induction l with
  | nil => simp [removeFirstOnline]
  | cons d rest ih =>
    rw [removeFirstOnline]
    by_cases hd : (d.steam_id == sid) = true
    · rw [if_pos hd]
      exact List.sublist_cons_self d rest
    · rw [if_neg hd]
      exact ih.cons₂ d

/-- Helper: every TimerProt operation preserves steam-id uniqueness of both
lists. -/
theorem applyTimerOp_preserves (st : NPPState) (op : TimerOp)
    (h : uniqueSteamIds st) : uniqueSteamIds (applyTimerOp st op) := by
  rcases h with ⟨h1, h2⟩
  cases op with
  | addNewPlayer sid tid now =>
    rw [applyTimerOp, AddNewPlayer]
    by_cases hc : st.all_players.any (fun d => d.steam_id == sid) = true
    · rw [if_pos hc]
      exact ⟨h1, h2⟩
    · rw [if_neg hc]
      exact ⟨nodup_map_append _ _ _ h1 (by simpa using hc), h2⟩
  | addPlayerFromDB sid tid startTime lastLogin level isNew =>
    rw [applyTimerOp, AddPlayerFromDB]
    by_cases hc : st.all_players.any (fun d => d.steam_id == sid) = true
    · rw [if_pos hc]
      exact ⟨h1, h2⟩
    · rw [if_neg hc]
      exact ⟨nodup_map_append _ _ _ h1 (by simpa using hc), h2⟩
  | addOnlinePlayer sid tid now =>
    rw [applyTimerOp, AddOnlinePlayer]
    by_cases hc : st.online_players.any (fun d => d.steam_id == sid) = true
    · rw [if_pos hc]
      exact ⟨h1, h2⟩
    · rw [if_neg hc]
      cases hfind : st.all_players.find? (fun d => d.steam_id == sid) with
      | some a =>
        refine ⟨?_, ?_⟩
        · rw [setLastLoginFirst_map_steam]
          exact h1
        · exact nodup_map_append _ _ _ h2 (by simpa using hc)
      | none =>
        exact ⟨h1, nodup_map_append _ _ _ h2 (by simpa using hc)⟩
  | removePlayer sid =>
    rw [applyTimerOp, RemovePlayer]
    exact ⟨h1, h2.sublist ((removeFirstOnline_sublist _ _).map _)⟩

/-- C9: starting from empty lists, any sequence of AddNewPlayer,
AddPlayerFromDB, AddOnlinePlayer and RemovePlayer calls keeps the steam ids
of all_players_ and of online_players_ duplicate-free: each Add scans for
the steam id first and inserts nothing when it is present. -/
theorem C9_steam_ids_unique (ops : List TimerOp) :
    uniqueSteamIds (ops.foldl applyTimerOp emptyTimerState) := by
  have gen : ∀ (l : List TimerOp) (st : NPPState), uniqueSteamIds st →
      uniqueSteamIds (l.foldl applyTimerOp st) := by
    intro l
    induction l with
    | nil =>
      intro st h
      exact h
    | cons op rest ih =>
      intro st h
      exact ih _ (applyTimerOp_preserves st op h)
  exact gen ops emptyTimerState ⟨List.nodup_nil, List.nodup_nil⟩

/-- Witness for C4: player 5 is found ready at time 100 with a 10 second
interval; at time 105 the call answers false and changes nothing. -/
theorem C4_message_throttling_witness :
    firstMessageTime [⟨5, 1, 0, 0, 1, 1, 110⟩] 5 = some 110 ∧
    IsNextMessageReady ⟨true, "Admins", 24, 15, false, false, false, 10, []⟩
      105 5 [⟨5, 1, 0, 0, 1, 1, 110⟩] = (false, [⟨5, 1, 0, 0, 1, 1, 110⟩]) := by
  have h := C4_message_throttling
    ⟨true, "Admins", 24, 15, false, false, false, 10, []⟩ 100 105 5
    [⟨5, 1, 0, 0, 1, 1, 90⟩] [⟨5, 1, 0, 0, 1, 1, 110⟩]
    (by decide) (by decide) (by decide)
  exact h

/-- Helper: one expiry step never touches the permissions cache. -/
theorem reStep_pm (cfg : NPPConfig) (cutoff : Int) (st : NPPState) (i : Nat) :
    (reStep cfg cutoff st i).permissionsMap = st.permissionsMap := by
  rw [reStep]
  cases st.all_players[i]? with
  | none => rfl
  | some a =>
    rw [reStepAux]
    by_cases hg : expiredCond cfg cutoff a ∧ ¬ IsAdmin cfg st.permissionsMap a.steam_id
    · rw [if_pos hg]
    · rw [if_neg hg]

/-- Helper: one expiry step either keeps an all_players_ entry unchanged or
merely zeroes its isNewPlayer flag. -/
theorem reStep_all_get (cfg : NPPConfig) (cutoff : Int) (st : NPPState) (i j : Nat)
    (b : AllPlayerData) (h : st.all_players[j]? = some b) :
    (reStep cfg cutoff st i).all_players[j]? = some b ∨
    (reStep cfg cutoff st i).all_players[j]? = some { b with isNewPlayer := 0 } := by
  rw [reStep]
  cases hmi : st.all_players[i]? with
  | none => exact Or.inl h
  | some a =>
    rw [reStepAux]
    by_cases hg : expiredCond cfg cutoff a ∧ ¬ IsAdmin cfg st.permissionsMap a.steam_id
    · rw [if_pos hg]
      simp only [List.getElem?_map, h, Option.map_some']
      by_cases hb : (b.tribe_id == a.tribe_id &&
          !(IsAdmin cfg st.permissionsMap b.steam_id)) = true
      · right
        rw [if_pos hb]
      · left
        rw [if_neg hb]
    · rw [if_neg hg]
      exact Or.inl h

/-- Helper: one expiry step either keeps an online entry unchanged or
merely zeroes its isNewPlayer flag. -/
theorem reStep_online_get (cfg : NPPConfig) (cutoff : Int) (st : NPPState) (i k : Nat)
    (o : OnlinePlayersData) (h : st.online_players[k]? = some o) :
    (reStep cfg cutoff st i).online_players[k]? = some o ∨
    (reStep cfg cutoff st i).online_players[k]? = some { o with isNewPlayer := 0 } := by
  rw [reStep]
  cases hmi : st.all_players[i]? with
  | none => exact Or.inl h
  | some a =>
    rw [reStepAux]
    by_cases hg : expiredCond cfg cutoff a ∧ ¬ IsAdmin cfg st.permissionsMap a.steam_id
    · rw [if_pos hg]
      simp only [List.getElem?_map, h, Option.map_some']
      by_cases ho : ((a.steam_id == o.steam_id || a.tribe_id == o.tribe_id) &&
          !(IsAdmin cfg st.permissionsMap o.steam_id)) = true
      · right
        rw [if_pos ho]
      · left
        rw [if_neg ho]
    · rw [if_neg hg]
      exact Or.inl h

/-- Helper: one expiry step leaves an admin all_players_ entry unchanged. -/
theorem reStep_all_admin (cfg : NPPConfig) (cutoff : Int) (st : NPPState) (i j : Nat)
    (b : AllPlayerData) (h : st.all_players[j]? = some b)
    (hadm : IsAdmin cfg st.permissionsMap b.steam_id = true) :
    (reStep cfg cutoff st i).all_players[j]? = some b := by
  rw [reStep]
  cases hmi : st.all_players[i]? with
  | none => exact h
  | some a =>
    rw [reStepAux]
    by_cases hg : expiredCond cfg cutoff a ∧ ¬ IsAdmin cfg st.permissionsMap a.steam_id
    · rw [if_pos hg]
      simp only [List.getElem?_map, h, Option.map_some']
      rw [if_neg (by simp [hadm])]
    · rw [if_neg hg]
      exact h

/-- Helper: one expiry step leaves an admin online entry unchanged. -/
theorem reStep_online_admin (cfg : NPPConfig) (cutoff : Int) (st : NPPState) (i k : Nat)
    (o : OnlinePlayersData) (h : st.online_players[k]? = some o)
    (hadm : IsAdmin cfg st.permissionsMap o.steam_id = true) :
    (reStep cfg cutoff st i).online_players[k]? = some o := by
  rw [reStep]
  cases hmi : st.all_players[i]? with
  | none => exact h
  | some a =>
    rw [reStepAux]
    by_cases hg : expiredCond cfg cutoff a ∧ ¬ IsAdmin cfg st.permissionsMap a.steam_id
    · rw [if_pos hg]
      simp only [List.getElem?_map, h, Option.map_some']
      rw [if_neg (by simp [hadm])]
    · rw [if_neg hg]
      exact h

/-- Helper: the expiry pass never touches the permissions cache. -/
theorem reFold_pm (cfg : NPPConfig) (cutoff : Int) (is : List Nat) (st : NPPState) :
    (reFold cfg cutoff is st).permissionsMap = st.permissionsMap := by
  induction is generalizing st with
  | nil => rfl
  | cons i rest ih =>
    rw [reFold, ih, reStep_pm]

/-- Helper: across the whole expiry pass, an all_players_ entry either
stays unchanged or only has its isNewPlayer flag zeroed. -/
theorem reFold_all_get (cfg : NPPConfig) (cutoff : Int) (is : List Nat) (st : NPPState)
    (j : Nat) (b : AllPlayerData) (h : st.all_players[j]? = some b) :
    ∃ b', (reFold cfg cutoff is st).all_players[j]? = some b' ∧
      (b' = b ∨ b' = { b with isNewPlayer := 0 }) := by
  induction is generalizing st b with
  | nil => exact ⟨b, h, Or.inl rfl⟩
  | cons i rest ih =>
    rw [reFold]
    rcases reStep_all_get cfg cutoff st i j b h with h1 | h1
    · exact ih _ _ h1
    · rcases ih _ _ h1 with ⟨b', hb', hcase⟩
      refine ⟨b', hb', ?_⟩
      rcases hcase with h2 | h2
      · exact Or.inr h2
      · right
        rw [h2]

/-- Helper: across the whole expiry pass, an online entry either stays
unchanged or only has its isNewPlayer flag zeroed. -/
theorem reFold_online_get (cfg : NPPConfig) (cutoff : Int) (is : List Nat) (st : NPPState)
    (k : Nat) (o : OnlinePlayersData) (h : st.online_players[k]? = some o) :
    ∃ o', (reFold cfg cutoff is st).online_players[k]? = some o' ∧
      (o' = o ∨ o' = { o with isNewPlayer := 0 }) := by
  induction is generalizing st o with
  | nil => exact ⟨o, h, Or.inl rfl⟩
  | cons i rest ih =>
    rw [reFold]
    rcases reStep_online_get cfg cutoff st i k o h with h1 | h1
    · exact ih _ _ h1
    · rcases ih _ _ h1 with ⟨o', ho', hcase⟩
      refine ⟨o', ho', ?_⟩
      rcases hcase with h2 | h2
      · exact Or.inr h2
      · right
        rw [h2]

/-- Helper: the expiry pass leaves an admin all_players_ entry unchanged. -/
theorem reFold_all_admin (cfg : NPPConfig) (cutoff : Int) (is : List Nat) (st : NPPState)
    (j : Nat) (b : AllPlayerData) (h : st.all_players[j]? = some b)
    (hadm : IsAdmin cfg st.permissionsMap b.steam_id = true) :
    (reFold cfg cutoff is st).all_players[j]? = some b := by
  induction is generalizing st with
  | nil => exact h
  | cons i rest ih =>
    rw [reFold]
    refine ih _ (reStep_all_admin cfg cutoff st i j b h hadm) ?_
    rw [reStep_pm]
    exact hadm

/-- Helper: the expiry pass leaves an admin online entry unchanged. -/
theorem reFold_online_admin (cfg : NPPConfig) (cutoff : Int) (is : List Nat) (st : NPPState)
    (k : Nat) (o : OnlinePlayersData) (h : st.online_players[k]? = some o)
    (hadm : IsAdmin cfg st.permissionsMap o.steam_id = true) :
    (reFold cfg cutoff is st).online_players[k]? = some o := by
  induction is generalizing st with
  | nil => exact h
  | cons i rest ih =>
    rw [reFold]
    refine ih _ (reStep_online_admin cfg cutoff st i k o h hadm) ?_
    rw [reStep_pm]
    exact hadm

/-- Helper: an evolution step preserves steam and tribe id of an
all_players_ entry. -/
theorem evolveA_fields {b b' : AllPlayerData}
    (h : b' = b ∨ b' = { b with isNewPlayer := 0 }) :
    b'.steam_id = b.steam_id ∧ b'.tribe_id = b.tribe_id := by
  rcases h with h | h <;> subst h <;> exact ⟨rfl, rfl⟩

/-- Helper: the expiry condition survives zeroing isNewPlayer (the third
disjunct becomes true). -/
theorem evolveA_cond {cfg : NPPConfig} {cutoff : Int} {b b' : AllPlayerData}
    (h : b' = b ∨ b' = { b with isNewPlayer := 0 })
    (hc : expiredCond cfg cutoff b = true) : expiredCond cfg cutoff b' = true := by
  rcases h with h | h
  · subst h
    exact hc
  · subst h
    simp [expiredCond]

/-- Helper: a zero isNewPlayer flag survives an evolution step. -/
theorem evolveA_zero {b b' : AllPlayerData}
    (h : b' = b ∨ b' = { b with isNewPlayer := 0 })
    (h0 : b.isNewPlayer = 0) : b'.isNewPlayer = 0 := by
  rcases h with h | h <;> subst h
  · exact h0
  · rfl

/-- Helper: an evolution step preserves steam and tribe id of an online
entry. -/
theorem evolveO_fields {o o' : OnlinePlayersData}
    (h : o' = o ∨ o' = { o with isNewPlayer := 0 }) :
    o'.steam_id = o.steam_id ∧ o'.tribe_id = o.tribe_id := by
  rcases h with h | h <;> subst h <;> exact ⟨rfl, rfl⟩

/-- Helper: a zero isNewPlayer flag of an online entry survives an
evolution step. -/
theorem evolveO_zero {o o' : OnlinePlayersData}
    (h : o' = o ∨ o' = { o with isNewPlayer := 0 })
    (h0 : o.isNewPlayer = 0) : o'.isNewPlayer = 0 := by
  rcases h with h | h <;> subst h
  · exact h0
  · rfl

/-- Helper, main induction for the expiry pass: when some processed index
holds a non-admin entry that satisfies the expiry condition at entry time,
every non-admin same-tribe all_players_ entry and every non-admin online
entry sharing its steam or tribe id ends with isNewPlayer 0. -/
theorem reFold_zero_main (cfg : NPPConfig) (cutoff : Int) (is : List Nat)
    (st : NPPState) (i : Nat) (a : AllPlayerData)
    (hi : i ∈ is)
    (ha : st.all_players[i]? = some a)
    (hadm : IsAdmin cfg st.permissionsMap a.steam_id = false)
    (hcond : expiredCond cfg cutoff a = true) :
    (∀ (j : Nat) (b : AllPlayerData), st.all_players[j]? = some b → b.tribe_id = a.tribe_id →
        IsAdmin cfg st.permissionsMap b.steam_id = false →
        ∃ b', (reFold cfg cutoff is st).all_players[j]? = some b' ∧
          b'.isNewPlayer = 0) ∧
    (∀ (k : Nat) (o : OnlinePlayersData), st.online_players[k]? = some o →
        (a.steam_id = o.steam_id ∨ a.tribe_id = o.tribe_id) →
        IsAdmin cfg st.permissionsMap o.steam_id = false →
        ∃ o', (reFold cfg cutoff is st).online_players[k]? = some o' ∧
          o'.isNewPlayer = 0) := by
  induction is generalizing st a with
  | nil => cases hi
  | cons i0 rest ih =>
    rw [reFold]
    rcases List.mem_cons.mp hi with heq | hmem
    · subst heq
      have hg : expiredCond cfg cutoff a ∧ ¬ IsAdmin cfg st.permissionsMap a.steam_id :=
        ⟨hcond, by simp [hadm]⟩
      have hstep : reStep cfg cutoff st i = { st with
          all_players := st.all_players.map (fun b =>
            if b.tribe_id == a.tribe_id && !(IsAdmin cfg st.permissionsMap b.steam_id) then
              { b with isNewPlayer := 0 }
            else b),
          online_players := st.online_players.map (fun o =>
            if (a.steam_id == o.steam_id || a.tribe_id == o.tribe_id) &&
                !(IsAdmin cfg st.permissionsMap o.steam_id) then
              { o with isNewPlayer := 0 }
            else o) } := by
        rw [reStep, ha, reStepAux, if_pos hg]
      constructor
      · intro j b hb htribe hbadm
        have hjb : (reStep cfg cutoff st i).all_players[j]? =
            some { b with isNewPlayer := 0 } := by
          rw [hstep]
          simp only [List.getElem?_map, hb, Option.map_some']
          rw [if_pos (by simp [htribe, hbadm])]
        rcases reFold_all_get cfg cutoff rest _ j _ hjb with ⟨b', hb', hcase⟩
        exact ⟨b', hb', evolveA_zero hcase rfl⟩
      · intro k o ho hcondo hoadm
        have hko : (reStep cfg cutoff st i).online_players[k]? =
            some { o with isNewPlayer := 0 } := by
          rw [hstep]
          simp only [List.getElem?_map, ho, Option.map_some']
          rw [if_pos ?side]
          case side =>
            rcases hcondo with hc | hc <;> simp [hc, hoadm]
        rcases reFold_online_get cfg cutoff rest _ k _ hko with ⟨o', ho', hcase⟩
        exact ⟨o', ho', evolveO_zero hcase rfl⟩
    · obtain ⟨a', ha', hacase⟩ : ∃ a',
          (reStep cfg cutoff st i0).all_players[i]? = some a' ∧
          (a' = a ∨ a' = { a with isNewPlayer := 0 }) := by
        rcases reStep_all_get cfg cutoff st i0 i a ha with h1 | h1
        · exact ⟨a, h1, Or.inl rfl⟩
        · exact ⟨_, h1, Or.inr rfl⟩
      have hpm := reStep_pm cfg cutoff st i0
      have hadm' : IsAdmin cfg (reStep cfg cutoff st i0).permissionsMap a'.steam_id = false := by
        rw [hpm, (evolveA_fields hacase).1]
        exact hadm
      have hcond' := evolveA_cond hacase hcond
      obtain ⟨IH1, IH2⟩ := ih (reStep cfg cutoff st i0) a' hmem ha' hadm' hcond'
      constructor
      · intro j b hb htribe hbadm
        obtain ⟨b'', hb'', hbcase⟩ : ∃ b'',
            (reStep cfg cutoff st i0).all_players[j]? = some b'' ∧
            (b'' = b ∨ b'' = { b with isNewPlayer := 0 }) := by
          rcases reStep_all_get cfg cutoff st i0 j b hb with h1 | h1
          · exact ⟨b, h1, Or.inl rfl⟩
          · exact ⟨_, h1, Or.inr rfl⟩
        have htribe' : b''.tribe_id = a'.tribe_id := by
          rw [(evolveA_fields hbcase).2, (evolveA_fields hacase).2]
          exact htribe
        have hbadm' : IsAdmin cfg (reStep cfg cutoff st i0).permissionsMap b''.steam_id = false := by
          rw [hpm, (evolveA_fields hbcase).1]
          exact hbadm
        exact IH1 j b'' hb'' htribe' hbadm'
      · intro k o ho hcondo hoadm
        obtain ⟨o'', ho'', hocase⟩ : ∃ o'',
            (reStep cfg cutoff st i0).online_players[k]? = some o'' ∧
            (o'' = o ∨ o'' = { o with isNewPlayer := 0 }) := by
          rcases reStep_online_get cfg cutoff st i0 k o ho with h1 | h1
          · exact ⟨o, h1, Or.inl rfl⟩
          · exact ⟨_, h1, Or.inr rfl⟩
        have hcondo' : a'.steam_id = o''.steam_id ∨ a'.tribe_id = o''.tribe_id := by
          rw [(evolveA_fields hacase).1, (evolveA_fields hacase).2,
            (evolveO_fields hocase).1, (evolveO_fields hocase).2]
          exact hcondo
        have hoadm' : IsAdmin cfg (reStep cfg cutoff st i0).permissionsMap o''.steam_id = false := by
          rw [hpm, (evolveO_fields hocase).1]
          exact hoadm
        exact IH2 k o'' ho'' hcondo' hoadm'

/-- C3: after RemoveExpiredTribesProtection, every non-admin all_players_
entry that satisfied the expiry condition at entry time (protection window
elapsed, level at or above MaxLevel, or isNewPlayer already 0) has
isNewPlayer 0; so does every non-admin all_players_ entry of the same
tribe, and every non-admin online entry sharing its steam id or tribe id;
admin entries of either list are never modified. -/
theorem C3_remove_expired_protection (cfg : NPPConfig) (now : Int) (st : NPPState)
    (i : Nat) (a : AllPlayerData)
    (ha : st.all_players[i]? = some a)
    (hadm : IsAdmin cfg st.permissionsMap a.steam_id = false)
    (hcond : expiredCond cfg (now - cfg.HoursOfProtection * 3600) a = true) :
    (∀ (j : Nat) (b : AllPlayerData), st.all_players[j]? = some b → b.tribe_id = a.tribe_id →
        IsAdmin cfg st.permissionsMap b.steam_id = false →
        ∃ b', (RemoveExpiredTribesProtection cfg now st).all_players[j]? = some b' ∧
          b'.isNewPlayer = 0) ∧
    (∀ (k : Nat) (o : OnlinePlayersData), st.online_players[k]? = some o →
        (a.steam_id = o.steam_id ∨ a.tribe_id = o.tribe_id) →
        IsAdmin cfg st.permissionsMap o.steam_id = false →
        ∃ o', (RemoveExpiredTribesProtection cfg now st).online_players[k]? = some o' ∧
          o'.isNewPlayer = 0) ∧
    (∀ (j : Nat) (b : AllPlayerData), st.all_players[j]? = some b →
        IsAdmin cfg st.permissionsMap b.steam_id = true →
        (RemoveExpiredTribesProtection cfg now st).all_players[j]? = some b) ∧
    (∀ (k : Nat) (o : OnlinePlayersData), st.online_players[k]? = some o →
        IsAdmin cfg st.permissionsMap o.steam_id = true →
        (RemoveExpiredTribesProtection cfg now st).online_players[k]? = some o) := by
  have hilen : i < st.all_players.length := by
    by_contra hc
    rw [List.getElem?_eq_none (by omega)] at ha
    cases ha
  have hi : i ∈ List.range st.all_players.length := List.mem_range.mpr hilen
  obtain ⟨H1, H2⟩ := reFold_zero_main cfg (now - cfg.HoursOfProtection * 3600)
    (List.range st.all_players.length) st i a hi ha hadm hcond
  refine ⟨H1, H2, ?_, ?_⟩
  · intro j b hb hbadm
    exact reFold_all_admin cfg _ _ st j b hb hbadm
  · intro k o ho hoadm
    exact reFold_online_admin cfg _ _ st k o ho hoadm

/-- Witness for C3: the expired founder of tribe 200000 drags the fresh
tribemate (all_players_ index 1) and the online tribe member (index 0) out
of protection. -/
theorem C3_remove_expired_protection_witness :
    allIsNewAt (RemoveExpiredTribesProtection exCfg3 1000000 exSt3) 1 = some 0 ∧
    onlineIsNewAt (RemoveExpiredTribesProtection exCfg3 1000000 exSt3) 0 = some 0 := by
  have h := C3_remove_expired_protection exCfg3 1000000 exSt3 0 exA3
    (by decide) (by decide) (by decide)
  obtain ⟨b', hb, h0⟩ := h.1 1 exB3 (by decide) (by decide) (by decide)
  obtain ⟨o', ho, ho0⟩ := h.2.1 0 exO3 (by decide) (by decide) (by decide)
  constructor
  · simp [allIsNewAt, hb, h0]
  · simp [onlineIsNewAt, ho, ho0]

/-- C6 (failing input, exposing the defect): with tribes 200001 and 200002
pending in removedPveTribesList, the save writes 200001 as unprotected but
never writes 200002, because the first UpdatePVETribeDB(_, false) call
clears removedPveTribesList while the save loop iterates that same vector;
the pending removal of 200002 is silently dropped and the tribe even
returns to the in-memory protected list, reloaded from the stale table
rows. The original's result is still passed through. -/
theorem C6_saveworld_removed_tribe_lost :
    DBCmd.insertPVETribe 200001 false ∈ (Hook_AShooterGameMode_SaveWorld true exSt6).2.dbLog ∧
    DBCmd.insertPVETribe 200002 false ∉ (Hook_AShooterGameMode_SaveWorld true exSt6).2.dbLog ∧
    (Hook_AShooterGameMode_SaveWorld true exSt6).2.removedPveTribes = [] ∧
    (Hook_AShooterGameMode_SaveWorld true exSt6).2.pveTribes = [200002] ∧
    (Hook_AShooterGameMode_SaveWorld true exSt6).1 = true := by
  decide

/-- C7: LoadPlugin throws exactly when the dll is missing, a plugin of the
name is already loaded, a non-zero MinApiVersion exceeds the API version,
or the native library load fails; a throw leaves loaded_plugins_ untouched,
and a successful call appends the plugin, which IsPluginLoaded then
reports. -/
theorem C7_load_plugin_errors (env : PMEnv) (st : PMState) (name : String) :
    ((LoadPlugin env st name).2.isSome ↔
      (st.files.contains (dllPath name) = false ∨ IsPluginLoaded st name = true ∨
        ((env.pluginInfo name).min_api_version ≠ 0 ∧
          env.apiVersion < (env.pluginInfo name).min_api_version) ∨
        env.loadLibraryOk name = false)) ∧
    ((LoadPlugin env st name).2.isSome → (LoadPlugin env st name).1 = st) ∧
    ((LoadPlugin env st name).2 = none →
      (LoadPlugin env st name).1.loaded_plugins_ =
        st.loaded_plugins_ ++ [mkPlugin name (env.pluginInfo name)] ∧
      IsPluginLoaded (LoadPlugin env st name).1 name = true) := by
  by_cases h1 : st.files.contains (dllPath name) = true
  · by_cases h2 : IsPluginLoaded st name = true
    · have he : LoadPlugin env st name = (st, some "was already loaded") := by
        rw [LoadPlugin, if_neg (not_not_intro h1), if_pos h2]
      rw [he]
      refine ⟨?_, fun _ => rfl, fun hc => by simp at hc⟩
      simp only [Option.isSome_some, true_iff]
      exact Or.inr (Or.inl h2)
    · by_cases h3 : (env.pluginInfo name).min_api_version ≠ 0 ∧
          env.apiVersion < (env.pluginInfo name).min_api_version
      · have he : LoadPlugin env st name = (st, some "requires newer API version") := by
          rw [LoadPlugin, if_neg (not_not_intro h1), if_neg h2, if_pos h3]
        rw [he]
        refine ⟨?_, fun _ => rfl, fun hc => by simp at hc⟩
        simp only [Option.isSome_some, true_iff]
        exact Or.inr (Or.inr (Or.inl h3))
      · by_cases h4 : env.loadLibraryOk name = true
        · have he : LoadPlugin env st name =
              ({ st with loaded_plugins_ :=
                  st.loaded_plugins_ ++ [mkPlugin name (env.pluginInfo name)] }, none) := by
            rw [LoadPlugin, if_neg (not_not_intro h1), if_neg h2, if_neg h3,
              if_neg (not_not_intro h4)]
          rw [he]
          refine ⟨?_, fun hc => by simp at hc, fun _ => ⟨rfl, ?_⟩⟩
          · refine iff_of_false (by simp) ?_
            rintro (hA | hB | hC | hD)
            · rw [h1] at hA
              cases hA
            · exact h2 hB
            · exact h3 hC
            · rw [h4] at hD
              cases hD
          · simp [IsPluginLoaded, List.any_append, mkPlugin]
        · have he : LoadPlugin env st name = (st, some "failed to load plugin") := by
            rw [LoadPlugin, if_neg (not_not_intro h1), if_neg h2, if_neg h3, if_pos h4]
          rw [he]
          refine ⟨?_, fun _ => rfl, fun hc => by simp at hc⟩
          simp only [Option.isSome_some, true_iff]
          exact Or.inr (Or.inr (Or.inr (by simpa using h4)))
  · have he : LoadPlugin env st name = (st, some "does not exist") := by
      rw [LoadPlugin, if_pos h1]
    rw [he]
    refine ⟨?_, fun _ => rfl, fun hc => by simp at hc⟩
    simp only [Option.isSome_some, true_iff]
    exact Or.inl (by simpa using h1)

/-- Witness for C7: loading a plugin whose dll exists into an empty manager
succeeds and IsPluginLoaded reports it. -/
theorem C7_load_plugin_errors_witness :
    IsPluginLoaded (LoadPlugin exEnvPM exSt7 "npp").1 "npp" = true := by
  have h := (C7_load_plugin_errors exEnvPM exSt7 "npp").2.2 (by decide)
  exact h.2

/-- Helper: erasing the only entry with a name leaves no entry with that
name. -/
theorem eraseFirstPlugin_not_loaded (l : List Plugin) (name : String)
    (h : l.countP (fun p => p.name == name) ≤ 1) :
    (eraseFirstPlugin l name).any (fun p => p.name == name) = false := by
  induction l with
  | nil => rfl
  | cons p rest ih =>
    rw [eraseFirstPlugin]
    by_cases hp : (p.name == name) = true
    · rw [if_pos hp]
      rw [List.countP_cons_of_pos] at h
      · have h0 : rest.countP (fun p => p.name == name) = 0 := by omega
        rw [List.any_eq_false]
        intro x hx
        have := List.countP_eq_zero.mp h0 x hx
        simpa using this
      · exact hp
    · rw [if_neg hp]
      have h' : rest.countP (fun p => p.name == name) ≤ 1 := by
        rw [List.countP_cons_of_neg] at h
        · exact h
        · simpa using hp
      rw [List.any_cons, ih h']
      simp [hp]

/-- Helper: the two paths of one plugin differ. -/
theorem dllPath_ne_arkApiPath (name : String) : ¬ dllPath name = arkApiPath name := by
  intro h
  have hlen := congrArg String.length h
  rw [arkApiPath, String.length_append] at hlen
  have h7 : (".ArkApi" : String).length = 7 := rfl
  omega

/-- Helper: membership converts to contains for string lists. -/
theorem contains_eq_true_of_mem {l : List String} {a : String} (h : a ∈ l) :
    l.contains a = true :=
  List.elem_eq_true_of_mem h

/-- Helper: contains converts to membership for string lists. -/
theorem mem_of_contains {l : List String} {a : String} (h : l.contains a = true) :
    a ∈ l :=
  List.mem_of_elem_eq_true h

/-- Helper: removing a different path keeps a file present. -/
theorem mem_removeFile (files : List String) (p q : String) (hne : ¬ q = p)
    (h : q ∈ files) : q ∈ removeFile files p := by
  rw [removeFile]
  refine List.mem_filter.mpr ⟨h, ?_⟩
  simpa using hne

/-- Helper: a removed path is gone. -/
theorem not_mem_removeFile (files : List String) (p : String) :
    p ∉ removeFile files p := by
  intro h
  have := (List.mem_filter.mp h).2
  simp at this

/-- Helper: the copied-to path exists afterwards. -/
theorem mem_addFile_self (files : List String) (p : String) : p ∈ addFile files p := by
  rw [addFile]
  by_cases h : files.contains p = true
  · rw [if_pos h]
    exact mem_of_contains h
  · rw [if_neg h]
    simp

/-- Helper: contains is false on the removed path. -/
theorem contains_removeFile_self (files : List String) (p : String) :
    (removeFile files p).contains p = false := by
  by_contra hc
  rw [Bool.not_eq_false] at hc
  exact not_mem_removeFile files p (mem_of_contains hc)

/-- C5: DetectPluginChanges folds processDir over the plugin directories; a
directory is hot-swapped exactly when its staged .dll.ArkApi file exists
and its plugin is in loaded_plugins_ — every other directory leaves the
loaded-plugin list and the files untouched — and in the swap case (the dll
present, the external unload and load calls succeeding, the version
compatible) the body performs, in order: the unload of the plugin, the copy
of the staged file over the dll together with the staged file's removal
(reaching swapState), and the re-load of the plugin. The uniqueness bound
on loaded names is the invariant LoadPlugin maintains. -/
theorem C5_detect_plugin_changes (env : PMEnv) (st : PMState) (name : String)
    (hcnt : st.loaded_plugins_.countP (fun p => p.name == name) ≤ 1) :
    (∀ dirs : List String, DetectPluginChanges env st dirs = dirs.foldl (processDir env) st) ∧
    (¬ (st.files.contains (arkApiPath name) = true ∧ IsPluginLoaded st name = true) →
      processDir env st name = st) ∧
    ((st.files.contains (arkApiPath name) = true ∧ IsPluginLoaded st name = true) →
      st.files.contains (dllPath name) = true →
      env.freeLibraryOk name = true →
      ¬ ((env.pluginInfo name).min_api_version ≠ 0 ∧
        env.apiVersion < (env.pluginInfo name).min_api_version) →
      env.loadLibraryOk name = true →
      UnloadPlugin env st name =
        ({ st with loaded_plugins_ := eraseFirstPlugin st.loaded_plugins_ name }, none) ∧
      LoadPlugin env (swapState st name) name = (swappedState env st name, none) ∧
      processDir env st name = swappedState env st name ∧
      IsPluginLoaded (processDir env st name) name = true ∧
      (processDir env st name).files.contains (arkApiPath name) = false) := by
  refine ⟨fun dirs => rfl, ?_, ?_⟩
  · intro hnc
    rw [processDir, if_neg hnc]
  · rintro ⟨hark, hload⟩ hdll hfree hver hlib
    have hunload : UnloadPlugin env st name =
        ({ st with loaded_plugins_ := eraseFirstPlugin st.loaded_plugins_ name }, none) := by
      rw [UnloadPlugin, if_neg (not_not_intro hload), if_neg (not_not_intro hdll),
        if_neg (not_not_intro hfree)]
    have hnl : IsPluginLoaded (swapState st name) name = false :=
      eraseFirstPlugin_not_loaded st.loaded_plugins_ name hcnt
    have hdll2 : (swapState st name).files.contains (dllPath name) = true :=
      contains_eq_true_of_mem (mem_removeFile _ _ _ (dllPath_ne_arkApiPath name)
        (mem_addFile_self _ _))
    have hload2 : LoadPlugin env (swapState st name) name = (swappedState env st name, none) := by
      rw [LoadPlugin, if_neg (not_not_intro hdll2), if_neg (by rw [hnl]; simp), if_neg hver,
        if_neg (not_not_intro hlib)]
      rfl
    have hproc : processDir env st name = swappedState env st name := by
      rw [processDir, if_pos ⟨hark, hload⟩, if_neg (by rw [hunload]; simp), hunload]
      show (LoadPlugin env (swapState st name) name).1 = _
      rw [hload2]
    refine ⟨hunload, hload2, hproc, ?_, ?_⟩
    · rw [hproc]
      simp [IsPluginLoaded, swappedState, List.any_append, mkPlugin]
    · rw [hproc]
      exact contains_removeFile_self _ _

/-- Witness for C5: a loaded plugin with a staged replacement is
hot-swapped; afterwards it is loaded again and the staged file is gone. -/
theorem C5_detect_plugin_changes_witness :
    IsPluginLoaded (processDir exEnvPM exSt5 "npp") "npp" = true ∧
    (processDir exEnvPM exSt5 "npp").files.contains (arkApiPath "npp") = false := by
  have h := (C5_detect_plugin_changes exEnvPM exSt5 "npp" (by decide)).2.2
    (by decide) (by decide) (by decide) (by decide) (by decide)
  exact ⟨h.2.2.2.1, h.2.2.2.2⟩

end NPP
